import Mathlib

/-!
Verification of the meemaid-flow repository: a shallow embedding of the
generation/validation workflow (`mermaid_agent.py`), the structural validator
(`tools/validators.py`), intent detection (`tools/detect_intent.py`),
diagram-code extraction (`tools/extract_mermaid_code.py`) and the
generate/describe tool nodes, together with theorems about the claims of the
specification.

Python strings are modelled as `List Char`; Python ints as `Int`/`Nat`;
dictionaries that preserve insertion order as association lists; `re.search`
on the concrete patterns of the source is modelled by dedicated matchers that
reproduce the leftmost-match and greedy/backtracking behaviour of those
patterns, as documented at each definition.
-/

namespace MeemaidFlow

/-- ASCII whitespace as recognised by Python `str.strip`, `str.split` and the
regex class `\s`: space, tab, newline, carriage return, vertical tab, form feed. -/
def isPySpace (c : Char) : Bool :=
  c = ' ' || c = '\t' || c = '\n' || c = '\r' || c = Char.ofNat 11 || c = Char.ofNat 12

/-- Python `str.strip()`: drop leading and trailing whitespace. -/
def pyStrip (cs : List Char) : List Char :=
  ((cs.dropWhile (fun c => isPySpace c)).reverse.dropWhile (fun c => isPySpace c)).reverse

/-- Python `str.split("\n")`. Splitting the empty string gives `[[]]`. -/
def splitLines : List Char → List (List Char)
  | [] => [[]]
  | c :: rest =>
    if c = '\n' then [] :: splitLines rest
    else
      match splitLines rest with
      | l :: ls => (c :: l) :: ls
      | [] => [[c]]

/-- Python `"\n".join(lines)`. -/
def joinLines : List (List Char) → List Char
  | [] => []
  | [l] => l
  | l :: ls => l ++ '\n' :: joinLines ls

/-- Python `str.split()` with no argument: split on whitespace runs,
discarding empty pieces. -/
def pySplitWs (cs : List Char) : List (List Char) :=
  let p := cs.foldr
    (fun c acc =>
      if isPySpace c then
        if acc.2.isEmpty then acc else (acc.2 :: acc.1, ([] : List Char))
      else (acc.1, c :: acc.2))
    ([], [])
  if p.2.isEmpty then p.1 else p.2 :: p.1

/-- `prefixOf n h` holds when `n` is a prefix of `h` (Python `str.startswith`). -/
def prefixOf : List Char → List Char → Bool
  | [], _ => true
  | _ :: _, [] => false
  | a :: as, b :: bs => a = b && prefixOf as bs

/-- `infx n h` holds when `n` occurs as a contiguous substring of `h`
(Python `n in h`). -/
def infx (n : List Char) : List Char → Bool
  | [] => prefixOf n []
  | c :: rest => prefixOf n (c :: rest) || infx n rest

/-- The regex class `\w` restricted to ASCII, which covers every input the
source patterns are applied to: letters, digits and underscore. -/
def isWordChar (c : Char) : Bool :=
  c.isAlpha || c.isDigit || c = '_'

/-- A single-quote character, used inside the error message strings of the
source. -/
def apos : String := String.mk [Char.ofNat 39]

/-! ## SequenceDiagramValidator (tools/validators.py, lines 7-113)

The validator keeps a set of participants and a dict from participant name to
a signed activation count; the dict is modelled as an association list in
insertion order, matching Python dict iteration order. -/

/-- The captured groups of one arrow-pattern match:
`(\w+)\s*CONNECTOR([+-]?)\s*(\w+)`. -/
structure ArrowMatch where
  source : List Char
  modifier : List Char
  target : List Char
deriving Repr, DecidableEq

/-- The literal connector cores of the eight arrow patterns of
`_validate_arrow_line`, in the order the source tries them:
`->>`, `-->>`, `->`, `-->`, `-x`, `--x`, `-)`, `--)`. -/
def arrowLiterals : List (List Char) :=
  [['-', '>', '>'], ['-', '-', '>', '>'], ['-', '>'], ['-', '-', '>'],
   ['-', 'x'], ['-', '-', 'x'], ['-', ')'], ['-', '-', ')']]

/-- Match `(\w+)\s*lit([+-]?)\s*(\w+)` anchored at the start of `cs`.

Each quantifier is taken greedily with no backtracking; this coincides with
Python because the literal starts with a hyphen and the optional modifier
class is `[+-]`, so after shortening `\w+` or `\s*` the next character is a
word or space character that can match neither the hyphen nor the modifier,
and after dropping a present modifier the engine would have to match
`\s*(\w+)` starting at that same `+`/`-` character, which always fails. -/
def matchArrowAt (lit : List Char) (cs : List Char) : Option ArrowMatch :=
  let w := cs.takeWhile (fun c => isWordChar c)
  if w.isEmpty then none
  else
    let r1 := cs.dropWhile (fun c => isWordChar c)
    let r2 := r1.dropWhile (fun c => isPySpace c)
    if prefixOf lit r2 then
      let r3 := r2.drop lit.length
      let (m, r4) :=
        match r3 with
        | c :: rest => if c = '+' || c = '-' then ([c], rest) else (([] : List Char), r3)
        | [] => ([], r3)
      let r5 := r4.dropWhile (fun c => isPySpace c)
      let t := r5.takeWhile (fun c => isWordChar c)
      if t.isEmpty then none else some ⟨w, m, t⟩
    else none

/-- `re.search` for one arrow pattern: try every start position from the left,
returning the leftmost match. -/
def searchArrow (lit : List Char) : List Char → Option ArrowMatch
  | [] => none
  | c :: rest =>
    match matchArrowAt lit (c :: rest) with
    | some m => some m
    | none => searchArrow lit rest

/-- The `for pattern in arrow_patterns` loop head: the first pattern, in
source order, that matches anywhere in the line wins. -/
def firstArrowMatch (line : List Char) : Option ArrowMatch :=
  go arrowLiterals
where
  go : List (List Char) → Option ArrowMatch
    | [] => none
    | lit :: lits =>
      match searchArrow lit line with
      | some m => some m
      | none => go lits

/-- Mutable state of a `SequenceDiagramValidator` instance: the participant
set and the activation-count dict in insertion order. -/
structure SeqState where
  participants : List (List Char)
  counts : List (List Char × Int)
deriving Repr, DecidableEq

/-- Python `set.add`: the set is modelled as a duplicate-free list. -/
def setAdd (s : List (List Char)) (x : List Char) : List (List Char) :=
  if s.contains x then s else s ++ [x]

/-- Dict lookup. -/
def countsGet : List (List Char × Int) → List Char → Option Int
  | [], _ => none
  | (a, v) :: rest, k => if a = k then some v else countsGet rest k

/-- Dict store, preserving insertion order; a fresh key is appended. -/
def countsSet : List (List Char × Int) → List Char → Int → List (List Char × Int)
  | [], k, v => [(k, v)]
  | (a, w) :: rest, k, v =>
    if a = k then (a, v) :: rest else (a, w) :: countsSet rest k v

/-- `f"Line {n}: Trying to deactivate inactive participant '{source}'"`. -/
def deactMsg (n : Nat) (source : List Char) : String :=
  "Line " ++ toString n ++ ": Trying to deactivate inactive participant "
    ++ apos ++ String.mk source ++ apos

/-- `if k not in dict: dict[k] = 0` (validators.py 93-96). -/
def ensureKey (m : List (List Char × Int)) (k : List Char) :
    List (List Char × Int) :=
  if (countsGet m k).isNone then countsSet m k 0 else m

/-- `SequenceDiagramValidator._validate_arrow_line` (validators.py 63-113):
find the first matching arrow pattern, register both endpoints, then apply the
activation (`+`) or deactivation (`-`) modifier; deactivating a participant
whose count is already `<= 0` reports a line error instead of decrementing. -/
def validateArrowLine (st : SeqState) (line : List Char) (lineNum : Nat) :
    SeqState × List String :=
  match firstArrowMatch line with
  | none => (st, [])
  | some m =>
    let ps := setAdd (setAdd st.participants m.source) m.target
    let c2 := ensureKey (ensureKey st.counts m.source) m.target
    if m.modifier.contains '+' then
      (⟨ps, countsSet c2 m.target ((countsGet c2 m.target).getD 0 + 1)⟩, [])
    else if m.modifier.contains '-' then
      if (countsGet c2 m.source).getD 0 ≤ 0 then
        (⟨ps, c2⟩, [deactMsg lineNum m.source])
      else
        (⟨ps, countsSet c2 m.source ((countsGet c2 m.source).getD 0 - 1)⟩, [])
    else (⟨ps, c2⟩, [])

/-- The participant-declaration scan of `validate` (validators.py 27-37):
stripped lines starting with `participant ` or `actor ` register their second
whitespace-separated token. -/
def participantScan (init : List (List Char)) (lines : List (List Char)) :
    List (List Char) :=
  lines.foldl
    (fun acc l =>
      let s := pyStrip l
      if s.isEmpty || prefixOf ['%', '%'] s then acc
      else if prefixOf "participant ".data s || prefixOf "actor ".data s then
        match pySplitWs s with
        | _ :: p :: _ => setAdd acc p
        | _ => acc
      else acc)
    init

/-- The arrow loop of `validate` (validators.py 40-47): lines are numbered
from 1, stripped, comments and blanks skipped, and each remaining line is fed
to `_validate_arrow_line`. -/
def arrowScan : SeqState → Nat → List (List Char) → SeqState × List String
  | st, _, [] => (st, [])
  | st, n, l :: ls =>
    let s := pyStrip l
    if s.isEmpty || prefixOf ['%', '%'] s then arrowScan st (n + 1) ls
    else
      let r := validateArrowLine st s n
      let rest := arrowScan r.1 (n + 1) ls
      (rest.1, r.2 ++ rest.2)

/-- `f"Participant '{p}' has {count} unmatched activation(s)"`. -/
def unmatchedWarn (p : List Char) (count : Int) : String :=
  "Participant " ++ apos ++ String.mk p ++ apos ++ " has "
    ++ toString count ++ " unmatched activation(s)"

/-- `f"Participant '{p}' has {abs(count)} extra deactivation(s)"`. -/
def extraDeactErr (p : List Char) (count : Int) : String :=
  "Participant " ++ apos ++ String.mk p ++ apos ++ " has "
    ++ toString count.natAbs ++ " extra deactivation(s)"

/-- The document-end balance check of `validate` (validators.py 49-59):
for every tracked participant with a nonzero count, a positive count yields a
warning and a negative count yields an error, in dict iteration order.
Returns `(errors, warnings)`. -/
def balanceMessages : List (List Char × Int) → List String × List String
  | [] => ([], [])
  | (p, c) :: rest =>
    let r := balanceMessages rest
    if c ≠ 0 then
      if c > 0 then (r.1, unmatchedWarn p c :: r.2)
      else (extraDeactErr p c :: r.1, r.2)
    else r

/-- The full result of `SequenceDiagramValidator().validate(code)`: the
returned `(errors, warnings)` pair together with the final tracker state of
the instance. -/
structure SeqResult where
  errors : List String
  warnings : List String
  participants : List (List Char)
  counts : List (List Char × Int)
deriving Repr, DecidableEq

/-- `SequenceDiagramValidator().validate(code)` (validators.py 14-61) on a
fresh instance, as `validate_mermaid` invokes it. -/
def seqValidate (code : List Char) : SeqResult :=
  let lines := splitLines code
  let parts := participantScan [] lines
  let r := arrowScan ⟨parts, []⟩ 1 lines
  let bal := balanceMessages r.1.counts
  ⟨r.2 ++ bal.1, bal.2, r.1.participants, r.1.counts⟩

/-! ## validate_mermaid (tools/validators.py, lines 115-224) -/

/-- The result dict `{"validation_result": {"valid": ..., "errors": ...,
"warnings": ...}}` returned by `validate_mermaid`. -/
structure ValidationResult where
  valid : Bool
  errors : List String
  warnings : List String
deriving Repr, DecidableEq

/-- The diagram-type keywords of the declaration check (validators.py 136-139). -/
def diagramTypeKeywords : List (List Char) :=
  ["sequenceDiagram", "flowchart", "graph", "classDiagram",
   "stateDiagram", "erDiagram", "gantt", "pie", "gitGraph"].map String.data

/-- The connector substrings whose presence exempts a line from the bracket
check (validators.py 151). -/
def bracketArrowTokens : List (List Char) :=
  ["->", "-->>", "-->", "->>", "-x", "--x", "-)", "--)"].map String.data

/-- The `brackets` closing map of the bracket check (validators.py 159). -/
def closerOf (c : Char) : Char :=
  if c = '[' then ']' else if c = '(' then ')' else '}'

def isOpener (c : Char) : Bool := c = '[' || c = '(' || c = '{'

def isCloser (c : Char) : Bool := c = ']' || c = ')' || c = '}'

def unexpectedMsg (n : Nat) (c : Char) : String :=
  "Line " ++ toString n ++ ": Unexpected closing bracket " ++ apos
    ++ String.mk [c] ++ apos

def mismatchMsg (n : Nat) : String := "Line " ++ toString n ++ ": Mismatched brackets"

def unclosedMsg (n : Nat) : String := "Line " ++ toString n ++ ": Unclosed brackets"

/-- The per-line character loop of the bracket check (validators.py 154-169),
including the `break` semantics: an unexpected closer stops the scan with an
empty stack, and a mismatched closer stops the scan after popping, so a
non-empty remaining stack additionally reports unclosed brackets. -/
def bracketScan (n : Nat) : List Char → List Char → List String
  | stack, [] => if stack.isEmpty then [] else [unclosedMsg n]
  | stack, c :: rest =>
    if isOpener c then bracketScan n (c :: stack) rest
    else if isCloser c then
      match stack with
      | [] => [unexpectedMsg n c]
      | op :: stack' =>
        if closerOf op = c then bracketScan n stack' rest
        else if stack'.isEmpty then [mismatchMsg n]
        else [mismatchMsg n, unclosedMsg n]
    else bracketScan n stack rest

/-- One line of the bracket check: lines containing any connector substring
are skipped entirely (validators.py 150-152). -/
def bracketLineErrors (n : Nat) (line : List Char) : List String :=
  if bracketArrowTokens.any (fun a => infx a line) then []
  else bracketScan n [] line

/-- The bracket check over all lines, numbered from 1 (validators.py 149). -/
def bracketAllFrom : Nat → List (List Char) → List String
  | _, [] => []
  | n, l :: ls => bracketLineErrors n l ++ bracketAllFrom (n + 1) ls

/-- Search for the lazy closer of the flowchart node pattern: some character
run without a newline, ended by the required closing bracket. -/
def findCloserBeforeNewline (cl : Char) : List Char → Bool
  | [] => false
  | c :: rest =>
    if c = cl then true
    else if c = '\n' then false
    else findCloserBeforeNewline cl rest

/-- Existence of a match of the flowchart node pattern
`\w+\[.*?\]|\w+\(.*?\)|\w+\{.*?\}` (validators.py 190): some word character
immediately followed by an opening bracket whose matching closer occurs later
with no newline in between. Taking the last character of the `\w+` run shows
this is equivalent to the regex search succeeding. -/
def hasNodePattern : List Char → Bool
  | [] => false
  | c :: rest =>
    (isWordChar c &&
      (match rest with
       | b :: r2 => isOpener b && findCloserBeforeNewline (closerOf b) r2
       | [] => false))
    || hasNodePattern rest

/-- The arrow substrings of the sequence-diagram arrow-presence check
(validators.py 179). -/
def validArrowTokens : List (List Char) :=
  ["->", "->>", "-->", "-->>", "-x", "--x", "-)", "--)",
   "->+", "-->+", "->>+", "-->>+"].map String.data

/-- The entity-relationship patterns (validators.py 206) are regex-escaped
literals, so their search is a substring check. -/
def erPatterns : List (List Char) :=
  ["||--||", "\x7do--o\x7b", "||--o\x7b", "\x7do--||"].map String.data

/-- Lines that are non-empty after stripping and are not `%%` comments
(validators.py 212). -/
def nonEmptyNonComment (lines : List (List Char)) : List (List Char) :=
  lines.filter (fun l =>
    let s := pyStrip l
    !s.isEmpty && !prefixOf ['%', '%'] s)

/-- `validate_mermaid(state)` (validators.py 115-224), as a function of the
two state fields it reads: `state.mermaid_code` and `state.diagram_type`.
`DiagramType.SEQUENCE_DIAGRAM.value` is the literal `"sequenceDiagram"`. -/
def validate_mermaid (mermaid_code : String) (diagram_type : String) :
    ValidationResult :=
  if mermaid_code = "" then ⟨false, ["No Mermaid code generated"], []⟩
  else
    let code := mermaid_code.data
    let declErrs :=
      if diagramTypeKeywords.any (fun k => infx k code) then []
      else ["Missing diagram type declaration"]
    let lines := splitLines code
    let bracketErrs := bracketAllFrom 1 lines
    let specific : List String × List String :=
      if diagram_type = "sequenceDiagram" then
        let r := seqValidate code
        let arrowErr :=
          if validArrowTokens.any (fun a => infx a code) then []
          else ["No valid sequence diagram arrows found"]
        (r.errors ++ arrowErr, r.warnings)
      else if diagram_type = "flowchart" then
        (if infx "-->".data code || infx "---".data code then []
         else ["No valid flowchart connections found"],
         if hasNodePattern code then []
         else ["No explicitly defined nodes found (may be using implicit nodes)"])
      else if diagram_type = "classDiagram" then
        ([],
         if infx "class ".data code || infx "<<".data code then []
         else ["No explicit class definitions found"])
      else if diagram_type = "stateDiagram" then
        (if infx "-->".data code then [] else ["No state transitions found"], [])
      else if diagram_type = "erDiagram" then
        ([],
         if erPatterns.any (fun p => infx p code) then []
         else ["No entity relationships found"])
      else ([], [])
    let shortWarn :=
      if (nonEmptyNonComment lines).length < 3 then
        ["Diagram seems too short, may be incomplete"]
      else []
    let errors := declErrs ++ bracketErrs ++ specific.1
    let warnings := specific.2 ++ shortWarn
    ⟨errors.isEmpty, errors, warnings⟩

/-! ## should_retry and the generate/validate loop (src/mermaid_agent.py)

The LangGraph wiring is `generate_diagram -> validate_mermaid -> should_retry`,
with `should_retry` sending the run back to `generate_diagram` or to `END`.
`generate_diagram` increments `iteration_count` on every attempt (also on
collaborator failure), so one loop step is: increment the counter, validate
the artifact of that attempt, consult `should_retry`. The external generator
is modelled by the function `artifact` giving the artifact text held after
each attempt. -/

/-- `should_retry` (mermaid_agent.py 38-51): `validation.get("valid", False)`
is modelled by an optional flag read with default `false`. -/
def should_retry (validation_valid : Option Bool)
    (iteration_count max_iterations : Nat) : String :=
  if validation_valid.getD false then "end"
  else if max_iterations ≤ iteration_count then "end"
  else "generate_diagram"

theorem should_retry_retry_lt (v : Option Bool) (ic mi : Nat)
    (h : should_retry v ic mi = "generate_diagram") : ic < mi := by
  unfold should_retry at h
  split at h
  · exact absurd h (by decide)
  · split at h
    · exact absurd h (by decide)
    · omega

/-- The generate/validate retry loop from iteration counter `count`:
each step runs one generation attempt (incrementing the counter), validates
the resulting artifact, and loops exactly when `should_retry` answers
`"generate_diagram"`. Returns the final counter together with the list of
counter values observed at each `should_retry` decision point. -/
def runGenerate (artifact : Nat → String) (dtype : String)
    (max_iterations count : Nat) : Nat × List Nat :=
  if h : should_retry (some (validate_mermaid (artifact (count + 1)) dtype).valid)
      (count + 1) max_iterations = "generate_diagram" then
    ((runGenerate artifact dtype max_iterations (count + 1)).1,
      (count + 1) :: (runGenerate artifact dtype max_iterations (count + 1)).2)
  else (count + 1, [count + 1])
termination_by max_iterations - count
decreasing_by
  have := should_retry_retry_lt _ _ _ h
  omega

/-! ## generate_diagram (tools/generate_diagram.py)

The LLM call is the external collaborator; its outcome is a parameter:
`.ok content` for a successful `llm.invoke` and `.error e` for a raised
exception with message `e`. The returned dict of state updates is modelled
with optional fields; LangGraph merges it into the state, leaving absent
fields unchanged. -/

structure GenState where
  mermaid_code : String
  iteration_count : Nat
  errors : List String
deriving Repr, DecidableEq

structure GenUpdate where
  mermaid_code : Option String
  iteration_count : Option Nat
  errors : Option (List String)
deriving Repr, DecidableEq

/-- The fenced-code cleanup of `generate_diagram` (generate_diagram.py 48-53):
strip the response, then if it starts with a code fence and has more than two
lines, drop the first and last line. -/
def stripCodeFence (content : String) : String :=
  let code := pyStrip content.data
  let fence := [Char.ofNat 96, Char.ofNat 96, Char.ofNat 96]
  if prefixOf fence code then
    let lines := splitLines code
    if 2 < lines.length then String.mk (joinLines (lines.drop 1).dropLast)
    else String.mk code
  else String.mk code

/-- `generate_diagram` (generate_diagram.py 5-66): on success, store the
cleaned artifact and increment the counter; on collaborator failure, append a
system error and still increment the counter, leaving `mermaid_code` absent
from the update. The prompt construction feeds only the external call and
does not affect the returned update. -/
def generate_diagram (state : GenState) (llmResponse : Except String String) :
    GenUpdate :=
  match llmResponse with
  | .ok content =>
    ⟨some (stripCodeFence content), some (state.iteration_count + 1), none⟩
  | .error e =>
    ⟨none, some (state.iteration_count + 1),
      some (state.errors ++ ["Failed to generate diagram: " ++ e])⟩

/-- LangGraph merge of an update dict into the state: keys absent from the
update leave the state field unchanged. -/
def applyGenUpdate (state : GenState) (u : GenUpdate) : GenState :=
  ⟨u.mermaid_code.getD state.mermaid_code,
   u.iteration_count.getD state.iteration_count,
   u.errors.getD state.errors⟩

/-! ## describe_diagram (tools/desribe_diagram.py)

The state is a pydantic `BaseModel` (`Diagram_ManagerState`), which defines no
`__getitem__`; the subscript expression `state["errors"]` in the except
handler therefore raises `TypeError` at runtime. The embedding makes Python
exceptions explicit with `Except PyExn`. -/

inductive PyExn where
  | typeError (msg : String)
deriving Repr, DecidableEq

structure DescState where
  user_prompt : String
  diagram_type : String
  errors : List String
deriving Repr, DecidableEq

/-- Subscript access `state[key]` on the pydantic model: `BaseModel` has no
`__getitem__`, so every subscript raises `TypeError`. -/
def dmSubscript (_state : DescState) (_key : String) :
    Except PyExn (List String) :=
  .error (.typeError (apos ++ "Diagram_ManagerState" ++ apos
    ++ " object is not subscriptable"))

/-- The diagram-type keywords scanned by `describe_diagram`
(desribe_diagram.py 24-25). -/
def describeTypeKeywords : List String :=
  ["sequenceDiagram", "flowchart", "classDiagram", "stateDiagram",
   "erDiagram", "gantt", "pie", "gitGraph"]

structure DescUpdate where
  description : String
  diagram_type : Option String
  errors : Option (List String)
deriving Repr, DecidableEq

/-- `describe_diagram` (desribe_diagram.py 6-76). The LLM call is the external
collaborator, passed as `llmResponse`; the best-effort syntax-context fetch
only feeds the prompt and cannot affect the returned update. On collaborator
failure the except handler evaluates `state["errors"]` before building the
update dict, so the raised `TypeError` propagates out of the node. -/
def describe_diagram (state : DescState) (llmResponse : Except String String) :
    Except PyExn DescUpdate :=
  let mermaid_code := pyStrip state.user_prompt.data
  if mermaid_code.isEmpty then
    .ok ⟨"No diagram code provided to describe.", none,
      some (state.errors ++ ["No mermaid code to describe"])⟩
  else
    let diagram_type :=
      if state.diagram_type ≠ "" then state.diagram_type
      else
        match describeTypeKeywords.find? (fun dt => infx dt.data mermaid_code) with
        | some dt => dt
        | none => ""
    match llmResponse with
    | .ok content =>
      .ok ⟨String.mk (pyStrip content.data), some diagram_type, none⟩
    | .error e =>
      match dmSubscript state "errors" with
      | .error exn => .error exn
      | .ok errs =>
        .ok ⟨"Failed to describe diagram: " ++ e, none,
          some (errs ++ ["Failed to describe diagram: " ++ e])⟩

/-! ## detect_intent (tools/detect_intent.py) -/

/-- Case-insensitive prefix test, for regexes compiled with `re.IGNORECASE`. -/
def ciStarts (pat : List Char) (txt : List Char) : Bool :=
  prefixOf (pat.map Char.toLower) (txt.map Char.toLower)

/-- The alternation of the source-type regex of `detect_intent`
(detect_intent.py 21), in source order. -/
def intentTypeAlternatives : List String :=
  ["graph", "sequenceDiagram", "classDiagram", "erDiagram", "gitGraph",
   "gantt", "pie", "stateDiagram", "flowchart", "C4Context", "C4Container",
   "C4Component"]

/-- Try the type alternation at one position, returning the matched input
characters (first alternative in source order wins; `re.IGNORECASE`). -/
def tryTypeAlts (cs : List Char) : Option (List Char) :=
  match intentTypeAlternatives.find? (fun alt => ciStarts alt.data cs) with
  | some alt => some (cs.take alt.data.length)
  | none => none

/-- Greedy `\s*` with backtracking before the alternation: try dropping `j`
whitespace characters for `j` from the maximal run length down to zero. -/
def tryWsDesc : Nat → List Char → Option (List Char)
  | 0, cs => tryTypeAlts cs
  | j + 1, cs =>
    match tryTypeAlts (cs.drop (j + 1)) with
    | some r => some r
    | none => tryWsDesc j cs

/-- Match `\s*(TYPE-ALTERNATION)` at one `^` position. -/
def matchTypeDeclAt (cs : List Char) : Option (List Char) :=
  tryWsDesc (cs.takeWhile (fun c => isPySpace c)).length cs

/-- `re.search(r"^\s*(TYPES)", prompt, re.IGNORECASE | re.MULTILINE)`:
with `re.MULTILINE`, `^` holds at position 0 and after every newline; start
positions are scanned from the left. -/
def searchTypeDecl : Bool → List Char → Option (List Char)
  | atStart, [] => if atStart then matchTypeDeclAt [] else none
  | atStart, c :: rest =>
    match (if atStart then matchTypeDeclAt (c :: rest) else none) with
    | some r => some r
    | none => searchTypeDecl (c = '\n') rest

/-- The `source_diagram_type` extraction of `detect_intent`
(detect_intent.py 19-27). -/
def detectSourceType (prompt : List Char) : Option (List Char) :=
  searchTypeDecl true prompt

def transformKeywords : List String :=
  ["convert", "transform", "change to", "into", "generate a c4", "create a c4"]

def describeKeywords : List String :=
  ["describe", "explain", "what does", "what is", "meaning", "analyze",
   "tell me about"]

/-- The request fields read by `detect_intent`: the pre-set action, the raw
user text and the requested target diagram type. -/
structure IntentState where
  action : String
  user_prompt : String
  diagram_type : String
deriving Repr, DecidableEq

/-- `detect_intent` (detect_intent.py 5-66): a pre-set action in the closed
action set is returned unchanged; otherwise the decision ladder over describe
keywords, transform keywords, detected source type and target type runs on
the stripped, lowercased prompt. -/
def detect_intent (s : IntentState) : String :=
  if s.action != "" && ["generate", "describe", "transform"].contains s.action then
    s.action
  else
    let user_prompt := pyStrip s.user_prompt.data
    let target := s.diagram_type
    let src := detectSourceType user_prompt
    let instr := user_prompt.map Char.toLower
    let hasTransformKw := transformKeywords.any (fun k => infx k.data instr)
    let hasDescribeKw := describeKeywords.any (fun k => infx k.data instr)
    if hasDescribeKw && src.isSome then "describe"
    else if hasTransformKw ||
        (src.isSome && target != "" &&
          !(["", "unknown"] : List String).contains target &&
          (src.getD []).map Char.toLower != target.data.map Char.toLower) then
      "transform"
    else if src.isSome then "describe"
    else "generate"

/-! ## extract_mermaid_code (tools/extract_mermaid_code.py)

Three methods tried in order. Method 1 is the markdown-fence regex, method 2
the raw-code regex per diagram type, method 3 the line-by-line scan, and the
fallback returns the stripped prompt. The two regex methods are modelled
position by position with the backtracking preferences of the Python engine,
documented at each definition. -/

def fenceChars : List Char := [Char.ofNat 96, Char.ofNat 96, Char.ofNat 96]

/-- The type alternation of the method-1 regex (extract_mermaid_code.py 17),
excluding the final `C4\w+` alternative, which is handled separately. -/
def extractTypesM1 : List String :=
  ["sequenceDiagram", "flowchart", "graph", "classDiagram", "erDiagram",
   "gantt", "pie", "stateDiagram"]

/-- The lazy `(.*?)` followed by the closing fence: the shortest character run
ending at the first triple-backtick occurrence, or failure when none exists. -/
def takeUntilFence : List Char → Option (List Char)
  | [] => none
  | c :: rest =>
    if prefixOf fenceChars (c :: rest) then some []
    else (takeUntilFence rest).map (fun t => c :: t)

/-- The alternation plus fenced content of method 1 at one position. The eight
literal alternatives are mutually prefix-free, so at most one can match at a
given position; for `C4\w+` the word run is taken greedily, which agrees with
the engine because the closing fence contains no word characters, so shrinking
the run cannot create a close that the greedy run lacks. -/
def m1TryAlts (cur : List Char) : Option (List Char) :=
  match extractTypesM1.find? (fun t => ciStarts t.data cur) with
  | some t =>
    let n := t.data.length
    (takeUntilFence (cur.drop n)).map (fun content =>
      pyStrip (cur.take n ++ content))
  | none =>
    if ciStarts ['C', '4'] cur then
      let w := (cur.drop 2).takeWhile (fun c => isWordChar c)
      if w.isEmpty then none
      else
        let n := 2 + w.length
        (takeUntilFence (cur.drop n)).map (fun content =>
          pyStrip (cur.take n ++ content))
    else none

/-- Greedy `\s*\n?` of method 1: the set of consumable prefixes is every
`j ≤ k` whitespace characters (`k` the maximal run), and the engine prefers
larger `j`. -/
def m1WsDesc : Nat → List Char → Option (List Char)
  | 0, cur => m1TryAlts cur
  | j + 1, cur =>
    match m1TryAlts (cur.drop (j + 1)) with
    | some r => some r
    | none => m1WsDesc j cur

/-- After the opening fence: greedy optional `(?:mermaid)?` (case-insensitive)
first, then the whitespace and the alternation. -/
def m1AfterFence (cur : List Char) : Option (List Char) :=
  match (if ciStarts "mermaid".data cur then
      m1WsDesc ((cur.drop 7).takeWhile (fun c => isPySpace c)).length (cur.drop 7)
    else none) with
  | some r => some r
  | none => m1WsDesc (cur.takeWhile (fun c => isPySpace c)).length cur

/-- Method 1: `re.search` scanning start positions from the left; the pattern
opens with a literal triple backtick. -/
def m1Search : List Char → Option (List Char)
  | [] => none
  | c :: rest =>
    match (if prefixOf fenceChars (c :: rest) then
        m1AfterFence ((c :: rest).drop 3)
      else none) with
    | some r => some r
    | none => m1Search rest

/-- The diagram-type list of methods 2 and 3 (extract_mermaid_code.py 31-35),
in source order. -/
def extractTypesM23 : List String :=
  ["sequenceDiagram", "flowchart", "graph TD", "graph LR", "graph",
   "classDiagram", "erDiagram", "gantt", "pie", "stateDiagram",
   "gitGraph", "C4Context", "C4Container", "C4Component"]

/-- The negative lookahead `(?!\n\s*\n)`: the text starts with a newline whose
following whitespace run contains another newline. -/
def startsBlankPair : List Char → Bool
  | c :: rest => c = '\n' && (rest.takeWhile (fun c => isPySpace c)).contains '\n'
  | [] => false

/-- The negative lookahead `(?!\n[A-Z][a-z]+:)`: a newline, an uppercase
letter, a nonempty lowercase run, then a colon. -/
def startsInstrBoundary : List Char → Bool
  | c :: d :: rest =>
    c = '\n' && d.isUpper &&
      (let m := rest.takeWhile (fun x => 'a' ≤ x && x ≤ 'z')
       !m.isEmpty && (rest.drop m.length).headD ' ' = ':')
  | _ => false

/-- The content group of method 2, `((?:(?!\n\s*\n)(?!\n[A-Z][a-z]+:).)*)`
compiled with `re.DOTALL`: the longest character run in which no position
starts a blank-line pair or an instruction boundary. -/
def m2Content : List Char → List Char
  | [] => []
  | c :: rest =>
    if startsBlankPair (c :: rest) || startsInstrBoundary (c :: rest) then []
    else c :: m2Content rest

/-- The greedy position of the required newline inside `\s*\n`: backtracking
from the full whitespace run down, the engine settles on the last newline of
the run, or fails when the run has none. -/
def lastNewlineIdx (run : List Char) : Option Nat :=
  (List.range run.length).foldl
    (fun acc j => if run.getD j ' ' = '\n' then some j else acc) none

/-- After the matched type literal of method 2: `\s*\n` then the content
group; the final result is `f"{type}\n{content}".strip()`. -/
def m2AfterType (dtype cur : List Char) : Option (List Char) :=
  match lastNewlineIdx (cur.takeWhile (fun c => isPySpace c)) with
  | none => none
  | some j => some (pyStrip (dtype ++ '\n' :: m2Content (cur.drop (j + 1))))

/-- The type literal of method 2 at one position (case-sensitive: the
method-2 pattern is compiled without `re.IGNORECASE`). -/
def m2TypeAt (dtype cs : List Char) : Option (List Char) :=
  if prefixOf dtype cs then m2AfterType dtype (cs.drop dtype.length) else none

/-- Greedy `^\s*` of method 2 with backtracking. -/
def m2WsDesc (dtype : List Char) : Nat → List Char → Option (List Char)
  | 0, cs => m2TypeAt dtype cs
  | j + 1, cs =>
    match m2TypeAt dtype (cs.drop (j + 1)) with
    | some r => some r
    | none => m2WsDesc dtype j cs

def m2MatchAt (dtype cs : List Char) : Option (List Char) :=
  m2WsDesc dtype (cs.takeWhile (fun c => isPySpace c)).length cs

/-- Method-2 `re.search` with `re.MULTILINE`: `^` positions scanned from the
left. -/
def m2SearchPos (dtype : List Char) : Bool → List Char → Option (List Char)
  | atStart, [] => if atStart then m2MatchAt dtype [] else none
  | atStart, c :: rest =>
    match (if atStart then m2MatchAt dtype (c :: rest) else none) with
    | some r => some r
    | none => m2SearchPos dtype (c = '\n') rest

/-- Method 2: the `for dtype in diagram_types` loop, first type whose pattern
matches wins. -/
def method2 : List String → List Char → Option (List Char)
  | [], _ => none
  | d :: ds, cs =>
    match m2SearchPos d.data true cs with
    | some r => some r
    | none => method2 ds cs

/-- Method 3 start index: the first line whose stripped text starts with one
of the diagram types. -/
def m3FindStart : Nat → List (List Char) → Option Nat
  | _, [] => none
  | i, l :: ls =>
    if extractTypesM23.any (fun d => prefixOf d.data (pyStrip l)) then some i
    else m3FindStart (i + 1) ls

/-- The method-3 accumulation loop (extract_mermaid_code.py 71-88): non-blank
lines are kept; a blank line stops the scan when the next line is a stripped
nonempty text starting with an uppercase letter and containing no colon,
otherwise the blank line is kept; a trailing blank line is kept. -/
def m3Collect : List (List Char) → List (List Char)
  | [] => []
  | l :: ls =>
    if (pyStrip l).isEmpty then
      match ls with
      | next :: _ =>
        let ns := pyStrip next
        if !ns.isEmpty && (ns.headD ' ').isUpper && !ns.contains ':' then []
        else l :: m3Collect ls
      | [] => l :: m3Collect ls
    else l :: m3Collect ls

/-- Method 3 (extract_mermaid_code.py 53-93): line scan from the first line
starting with a known type; an empty collected result falls through to the
final fallback. -/
def method3 (prompt : List Char) : Option (List Char) :=
  let lines := splitLines prompt
  match m3FindStart 0 lines with
  | none => none
  | some i =>
    let r := pyStrip (joinLines (m3Collect (lines.drop i)))
    if r.isEmpty then none else some r

/-- `extract_mermaid_code(prompt)` (extract_mermaid_code.py 4-97). -/
def extract_mermaid_code (prompt : String) : String :=
  match m1Search prompt.data with
  | some r => String.mk r
  | none =>
    match method2 extractTypesM23 prompt.data with
    | some r => String.mk r
    | none =>
      match method3 prompt.data with
      | some r => String.mk r
      | none => String.mk (pyStrip prompt.data)

/-! ## Helper lemmas -/

theorem listIsEmptyIff (l : List String) : l.isEmpty = true ↔ l = [] := by
  cases l <;> simp

theorem countsGet_nonneg (m : List (List Char × Int)) (k : List Char)
    (h : ∀ p ∈ m, 0 ≤ p.2) : 0 ≤ (countsGet m k).getD 0 := by
  induction m with
  | nil => simp [countsGet]
  | cons hd tl ih =>
    simp only [countsGet]
    split
    · exact h hd (List.mem_cons_self hd tl)
    · exact ih (fun p hp => h p (List.mem_cons_of_mem hd hp))

theorem countsSet_nonneg (m : List (List Char × Int)) (k : List Char) (v : Int)
    (h : ∀ p ∈ m, 0 ≤ p.2) (hv : 0 ≤ v) :
    ∀ p ∈ countsSet m k v, 0 ≤ p.2 := by
  induction m with
  | nil => simpa [countsSet] using hv
  | cons hd tl ih =>
    simp only [countsSet]
    split
    · intro p hp
      rcases List.mem_cons.mp hp with rfl | hp
      · exact hv
      · exact h p (List.mem_cons_of_mem hd hp)
    · intro p hp
      rcases List.mem_cons.mp hp with rfl | hp
      · exact h hd (List.mem_cons_self hd tl)
      · exact ih (fun q hq => h q (List.mem_cons_of_mem hd hq)) p hp

theorem ensureKey_nonneg (m : List (List Char × Int)) (k : List Char)
    (h : ∀ p ∈ m, 0 ≤ p.2) : ∀ p ∈ ensureKey m k, 0 ≤ p.2 := by
  unfold ensureKey
  split
  · exact countsSet_nonneg m k 0 h le_rfl
  · exact h

theorem validateArrowLine_nonneg (st : SeqState) (line : List Char) (n : Nat)
    (h : ∀ p ∈ st.counts, 0 ≤ p.2) :
    ∀ p ∈ (validateArrowLine st line n).1.counts, 0 ≤ p.2 := by
  unfold validateArrowLine
  split
  · exact h
  · rename_i m _
    dsimp only
    have h2 : ∀ p ∈ ensureKey (ensureKey st.counts m.source) m.target, 0 ≤ p.2 :=
      ensureKey_nonneg _ _ (ensureKey_nonneg _ _ h)
    split
    · exact countsSet_nonneg _ _ _ h2
        (by have := countsGet_nonneg _ m.target h2; omega)
    · split
      · split
        · exact h2
        · rename_i hgt
          exact countsSet_nonneg _ _ _ h2 (by omega)
      · exact h2

theorem arrowScan_nonneg (lines : List (List Char)) :
    ∀ st n, (∀ p ∈ st.counts, 0 ≤ p.2) →
      ∀ p ∈ (arrowScan st n lines).1.counts, 0 ≤ p.2 := by
  induction lines with
  | nil => intro st n h; simpa [arrowScan] using h
  | cons l ls ih =>
    intro st n h
    simp only [arrowScan]
    split
    · exact ih st (n + 1) h
    · exact ih _ (n + 1) (validateArrowLine_nonneg st _ n h)

theorem balanceMessages_no_errors (counts : List (List Char × Int))
    (h : ∀ p ∈ counts, 0 ≤ p.2) : (balanceMessages counts).1 = [] := by
  induction counts with
  | nil => rfl
  | cons hd tl ih =>
    obtain ⟨p, c⟩ := hd
    have hc : (0 : Int) ≤ c := h (p, c) (List.mem_cons_self _ tl)
    have hrest := ih (fun q hq => h q (List.mem_cons_of_mem _ hq))
    simp only [balanceMessages]
    split
    · split
      · exact hrest
      · omega
    · exact hrest

/-! ## Claims -/

/-- C3: for every artifact text and diagram type, the `ValidationResult`
returned by `validate_mermaid` satisfies `valid == (errors is empty)`;
warnings never affect the validity flag. -/
theorem c3_valid_iff_no_errors (code dtype : String) :
    (validate_mermaid code dtype).valid = true ↔
      (validate_mermaid code dtype).errors = [] := by
  unfold validate_mermaid
  split
  · simp
  · exact listIsEmptyIff _

/-- C4: on `A->>+B: x` then `B-->>-A: y` the final activation counts of both
actors are zero and no error or warning is emitted; on `A->>-B: x` alone, a
deactivating-inactive-participant error is emitted for line 1. -/
theorem c4_activation_tracker_examples :
    (seqValidate "A->>+B: x\nB-->>-A: y".data).errors = [] ∧
    (seqValidate "A->>+B: x\nB-->>-A: y".data).warnings = [] ∧
    (seqValidate "A->>+B: x\nB-->>-A: y".data).counts =
      [("A".data, 0), ("B".data, 0)] ∧
    (seqValidate "A->>-B: x".data).errors =
      ["Line 1: Trying to deactivate inactive participant " ++ apos ++ "A" ++ apos] := by
  refine ⟨rfl, rfl, rfl, rfl⟩

/-- C5: at document end, a strictly positive residual count produces exactly
the unmatched-activation warning, a strictly negative one exactly the
extra-deactivation error, and a zero count produces neither; the warnings of
a full validation pass are exactly those of its final counts. -/
theorem c5_balance_residue :
    (∀ counts : List (List Char × Int),
      balanceMessages counts =
        ((counts.filter (fun p => p.2 < 0)).map (fun p => extraDeactErr p.1 p.2),
         (counts.filter (fun p => 0 < p.2)).map (fun p => unmatchedWarn p.1 p.2))) ∧
    ∀ code : List Char,
      (seqValidate code).warnings =
        ((seqValidate code).counts.filter (fun p => 0 < p.2)).map
          (fun p => unmatchedWarn p.1 p.2) := by
  have main : ∀ counts : List (List Char × Int),
      balanceMessages counts =
        ((counts.filter (fun p => p.2 < 0)).map (fun p => extraDeactErr p.1 p.2),
         (counts.filter (fun p => 0 < p.2)).map (fun p => unmatchedWarn p.1 p.2)) := by
    intro counts
    induction counts with
    | nil => rfl
    | cons hd tl ih =>
      obtain ⟨p, c⟩ := hd
      simp only [balanceMessages, ih, List.filter_cons]
      rcases lt_trichotomy c 0 with hc | hc | hc
      · simp [hc, not_lt.mpr (le_of_lt hc), hc.ne]
      · simp [hc]
      · simp [hc, not_lt.mpr (le_of_lt hc), hc.ne.symm]
  refine ⟨main, fun code => ?_⟩
  have : (seqValidate code).warnings =
      (balanceMessages (seqValidate code).counts).2 := rfl
  rw [this, main]

/-- C6: on the exact transform-path input, extraction returns exactly the
three flowchart lines, excluding the leading instruction line and the blank
line. -/
theorem c6_transform_extraction :
    extract_mermaid_code
        "Convert this to C4:\n\nflowchart TD\n    A[Start] --> B[Process]\n    B --> C[End]"
      = "flowchart TD\n    A[Start] --> B[Process]\n    B --> C[End]" ∧
    splitLines (extract_mermaid_code
        "Convert this to C4:\n\nflowchart TD\n    A[Start] --> B[Process]\n    B --> C[End]").data
      = ["flowchart TD".data, "    A[Start] --> B[Process]".data,
         "    B --> C[End]".data] := by
  refine ⟨rfl, rfl⟩

/-- C7: every line containing a directional connector token is exempt from
the bracket check, and the connector-free line `foo(bar]`, whose closing
bracket does not match the most recent opener, yields a line-scoped
mismatched-brackets error. -/
theorem c7_bracket_connector_exemption (n : Nat) (line : List Char)
    (h : bracketArrowTokens.any (fun a => infx a line) = true) :
    bracketLineErrors n line = [] ∧
    bracketLineErrors 1 "foo(bar]".data = ["Line 1: Mismatched brackets"] := by
  refine ⟨by simp [bracketLineErrors, h], by decide⟩

theorem c7_bracket_connector_exemption_witness :
    bracketArrowTokens.any (fun a => infx a "A[Start] --> B[End]".data) = true ∧
    bracketLineErrors 7 "A[Start] --> B[End]".data = [] ∧
    bracketLineErrors 1 "foo(bar]".data = ["Line 1: Mismatched brackets"] :=
  ⟨by decide,
   (c7_bracket_connector_exemption 7 "A[Start] --> B[End]".data (by decide)).1,
   (c7_bracket_connector_exemption 7 "A[Start] --> B[End]".data (by decide)).2⟩

/-- C8: a pre-set action in the closed action set is returned unchanged by
intent classification, independently of the request text and the target
diagram type. -/
theorem c8_preset_action_override (s : IntentState)
    (h : s.action ∈ (["generate", "describe", "transform"] : List String)) :
    detect_intent s = s.action := by
  obtain ⟨a, p, d⟩ := s
  simp only [List.mem_cons, List.not_mem_nil, or_false] at h
  rcases h with rfl | rfl | rfl <;> rfl

theorem c8_preset_action_override_witness :
    ("describe" ∈ (["generate", "describe", "transform"] : List String)) ∧
    detect_intent ⟨"describe", "flowchart A-->B", ""⟩ = "describe" :=
  ⟨by decide, c8_preset_action_override ⟨"describe", "flowchart A-->B", ""⟩ (by decide)⟩

/-- C9: when the generation collaborator raises during a generation attempt,
the merged state appends one system error, increments the iteration counter
by one, and leaves the current artifact text unchanged. -/
theorem c9_generate_failure_update (state : GenState) (e : String) :
    (applyGenUpdate state (generate_diagram state (.error e))).errors =
        state.errors ++ ["Failed to generate diagram: " ++ e] ∧
    (applyGenUpdate state (generate_diagram state (.error e))).iteration_count =
        state.iteration_count + 1 ∧
    (applyGenUpdate state (generate_diagram state (.error e))).mermaid_code =
        state.mermaid_code :=
  ⟨rfl, rfl, rfl⟩

/-- C2: on the describe path with a nonempty prompt, a collaborator failure
is not recovered: the except handler subscripts the pydantic state object,
which raises `TypeError`, so the exception propagates to the caller instead
of being appended to the error list. -/
theorem c2_describe_failure_raises (state : DescState) (e : String)
    (h : pyStrip state.user_prompt.data ≠ []) :
    describe_diagram state (.error e) =
      .error (.typeError (apos ++ "Diagram_ManagerState" ++ apos
        ++ " object is not subscriptable")) := by
  unfold describe_diagram
  rw [if_neg]
  · rfl
  · simpa [listIsEmptyIff] using h

theorem c2_describe_failure_raises_witness :
    pyStrip ("flowchart TD\n  A --> B" : String).data ≠ [] ∧
    describe_diagram ⟨"flowchart TD\n  A --> B", "flowchart", []⟩ (.error "boom") =
      .error (.typeError (apos ++ "Diagram_ManagerState" ++ apos
        ++ " object is not subscriptable")) :=
  ⟨by decide,
   c2_describe_failure_raises ⟨"flowchart TD\n  A --> B", "flowchart", []⟩ "boom"
     (by decide)⟩

theorem runGenerate_le (artifact : Nat → String) (dtype : String) (mi : Nat) :
    ∀ n count, mi - count ≤ n → count < mi →
      (runGenerate artifact dtype mi count).1 ≤ mi ∧
        ∀ c ∈ (runGenerate artifact dtype mi count).2, c ≤ mi := by
  intro n
  induction n with
  | zero => intro count h1 h2; omega
  | succ n ih =>
    intro count h1 h2
    unfold runGenerate
    split
    · rename_i hr
      have hlt := should_retry_retry_lt _ _ _ hr
      have hrec := ih (count + 1) (by omega) hlt
      refine ⟨hrec.1, ?_⟩
      intro c hc
      rcases List.mem_cons.mp hc with rfl | hc
      · omega
      · exact hrec.2 c hc
    · refine ⟨by omega, ?_⟩
      intro c hc
      rcases List.mem_cons.mp hc with rfl | hc
      · omega
      · simp at hc

/-- C1: with a positive retry budget, the iteration counter stays at or below
`max_iterations` at the end of the run and at every `should_retry` decision
point, and `should_retry` never answers another generation attempt once the
counter has reached the budget; the loop is a terminating function. -/
theorem c1_retry_budget (artifact : Nat → String) (dtype : String)
    (max_iterations : Nat) (hpos : 0 < max_iterations) :
    (runGenerate artifact dtype max_iterations 0).1 ≤ max_iterations ∧
    (∀ c ∈ (runGenerate artifact dtype max_iterations 0).2, c ≤ max_iterations) ∧
    ∀ v ic, max_iterations ≤ ic → should_retry v ic max_iterations ≠ "generate_diagram" := by
  refine ⟨(runGenerate_le artifact dtype max_iterations max_iterations 0 (by omega) hpos).1,
    (runGenerate_le artifact dtype max_iterations max_iterations 0 (by omega) hpos).2,
    ?_⟩
  intro v ic hge hcon
  exact absurd (should_retry_retry_lt v ic max_iterations hcon) (by omega)

theorem c1_retry_budget_witness :
    0 < 3 ∧
    ((runGenerate (fun _ => "") "flowchart" 3 0).1 ≤ 3 ∧
     (∀ c ∈ (runGenerate (fun _ => "") "flowchart" 3 0).2, c ≤ 3) ∧
     ∀ v ic, 3 ≤ ic → should_retry v ic 3 ≠ "generate_diagram") :=
  ⟨by decide, c1_retry_budget (fun _ => "") "flowchart" 3 (by decide)⟩

/-- C10: a deactivation on an actor with count `<= 0` reports an error
instead of decrementing, so every activation count is non-negative after each
line of the pass and in the final tracker state, and the document-end
extra-deactivation error branch is never taken on any input. -/
theorem c10_activation_counts_nonneg :
    (∀ (st : SeqState) (line : List Char) (n : Nat),
        (∀ p ∈ st.counts, 0 ≤ p.2) →
        ∀ p ∈ (validateArrowLine st line n).1.counts, 0 ≤ p.2) ∧
    ∀ code : List Char,
      (∀ p ∈ (seqValidate code).counts, 0 ≤ p.2) ∧
      (balanceMessages (seqValidate code).counts).1 = [] := by
  refine ⟨validateArrowLine_nonneg, fun code => ?_⟩
  have hfin : ∀ p ∈ (seqValidate code).counts, 0 ≤ p.2 := by
    have : (seqValidate code).counts =
        (arrowScan ⟨participantScan [] (splitLines code), []⟩ 1 (splitLines code)).1.counts :=
      rfl
    rw [this]
    exact arrowScan_nonneg (splitLines code) _ 1 (by simp)
  exact ⟨hfin, balanceMessages_no_errors _ hfin⟩

theorem c10_activation_counts_nonneg_witness :
    ((∀ p ∈ ([("A".data, (1 : Int))] : List (List Char × Int)), 0 ≤ p.2) ∧
      ∀ p ∈ (validateArrowLine ⟨[], [("A".data, 1)]⟩ "A->>-B: x".data 1).1.counts,
        0 ≤ p.2) ∧
    (∀ p ∈ (seqValidate "A->>+B: x\nA->>-B: y".data).counts, 0 ≤ p.2) ∧
    (balanceMessages (seqValidate "A->>+B: x\nA->>-B: y".data).counts).1 = [] :=
  ⟨⟨by decide,
    c10_activation_counts_nonneg.1 ⟨[], [("A".data, 1)]⟩ "A->>-B: x".data 1 (by decide)⟩,
   c10_activation_counts_nonneg.2 "A->>+B: x\nA->>-B: y".data⟩

end MeemaidFlow
